/-
Verification of the collab-space-server real-time collaboration backend.

Shallow embedding of the collaboration components:
  * apps/collaboration/services.py  (OperationProcessor, PresenceService,
    CollaborationService block locks)
  * apps/collaboration/consumers.py (DocumentConsumer receive loop and
    group fan-out handlers)
  * apps/collaboration/tasks.py     (compress_operation_logs)
  * apps/core/utils.py              (IdempotencyService)

Machine state (database rows, Redis keys, Django cache) is passed
explicitly; time is an explicit Nat parameter (seconds for Redis TTLs,
microseconds only where the code stores timestamps).  Fallible code
returns sum types.
-/
import Mathlib

/-! ## SHA-256 (hashlib.sha256, as used by _generate_operation_id).
The round constants and initial state are derived, as in the standard,
from the fractional parts of the cube and square roots of the first
primes, via fuel-driven integer root searches. -/

/-- Truncate to a 32-bit word (all SHA-256 arithmetic is mod 2^32). -/
def w32 (n : Nat) : Nat := n % 4294967296

/-- Does n have a divisor between 2 and the bound? -/
def hasFactorBelow (n : Nat) : Nat → Bool
  | 0 => false
  | 1 => false
  | d + 1 => n % (d + 1) == 0 || hasFactorBelow n d

/-- Primality by trial division. -/
def isPrimeNat (n : Nat) : Bool :=
  decide (2 ≤ n) && !hasFactorBelow n (n - 1)

/-- Fuel-driven binary search keeping lo^2 ≤ n, used for the integer
square root. -/
def sqrtSearch (n lo hi : Nat) : Nat → Nat
  | 0 => lo
  | f + 1 =>
    let mid := (lo + hi + 1) / 2
    if mid * mid ≤ n then sqrtSearch n mid hi f
    else sqrtSearch n lo (mid - 1) f

/-- Integer square root. -/
def isqrt (n : Nat) : Nat := sqrtSearch n 0 n 200

/-- Fuel-driven binary search keeping lo^3 ≤ n, used for the integer
cube root. -/
def cbrtSearch (n lo hi : Nat) : Nat → Nat
  | 0 => lo
  | f + 1 =>
    let mid := (lo + hi + 1) / 2
    if mid * mid * mid ≤ n then cbrtSearch n mid hi f
    else cbrtSearch n lo (mid - 1) f

/-- Integer cube root. -/
def icbrt (n : Nat) : Nat := cbrtSearch n 0 n 200

/-- The first 64 primes (311 is the 64th). -/
def sha256Primes : List Nat := ((List.range 312).filter isPrimeNat).take 64

/-- Round constants: the first 32 bits of the fractional part of the
cube root of each of the first 64 primes. -/
def sha256K : List Nat := sha256Primes.map fun p => w32 (icbrt (p <<< 96))

/-- Initial hash state: the first 32 bits of the fractional part of the
square root of each of the first 8 primes. -/
def sha256H0 : List Nat :=
  (sha256Primes.take 8).map fun p => w32 (isqrt (p <<< 64))

/-- Right rotation of a 32-bit word; the two shifted parts occupy
disjoint bits, so their sum is their union. -/
def rotr32 (x n : Nat) : Nat := (x >>> n) + w32 (x <<< (32 - n))

def sha256SmallSigma0 (x : Nat) : Nat :=
  (x >>> 3) ^^^ (rotr32 x 7) ^^^ (rotr32 x 18)

def sha256SmallSigma1 (x : Nat) : Nat :=
  (x >>> 10) ^^^ (rotr32 x 17) ^^^ (rotr32 x 19)

def sha256BigSigma0 (x : Nat) : Nat :=
  (rotr32 x 2) ^^^ (rotr32 x 13) ^^^ (rotr32 x 22)

def sha256BigSigma1 (x : Nat) : Nat :=
  (rotr32 x 6) ^^^ (rotr32 x 11) ^^^ (rotr32 x 25)

/-- Choice function, in its xor-of-masked-xor form. -/
def sha256Ch (e f g : Nat) : Nat := g ^^^ (e &&& (f ^^^ g))

/-- Majority function, in its or-of-ands form. -/
def sha256Maj (a b c : Nat) : Nat := (a &&& b) ||| (c &&& (a ||| b))

/-- Extend the 16 message words of one block to the 64-word schedule. -/
def sha256Schedule (ws : List Nat) : List Nat :=
  (List.range 48).foldl
    (fun w i =>
      w ++ [w32 (w.getD i 0 + sha256SmallSigma0 (w.getD (i + 1) 0) +
                 w.getD (i + 9) 0 + sha256SmallSigma1 (w.getD (i + 14) 0))])
    ws

/-- One round of the SHA-256 compression function. -/
def sha256Round (w : List Nat)
    (st : Nat × Nat × Nat × Nat × Nat × Nat × Nat × Nat) (i : Nat) :
    Nat × Nat × Nat × Nat × Nat × Nat × Nat × Nat :=
  match st with
  | (a, b, c, d, e, f, g, h) =>
    let t1 := w32 (sha256K.getD i 0 + w.getD i 0 + h +
                   sha256BigSigma1 e + sha256Ch e f g)
    let t2 := w32 (sha256BigSigma0 a + sha256Maj a b c)
    (w32 (t1 + t2), a, b, c, w32 (d + t1), e, f, g)

/-- Compress one 64-byte block (given as 16 words) into the hash state. -/
def sha256Compress (h : List Nat) (ws : List Nat) : List Nat :=
  let w := sha256Schedule ws
  let fin := (List.range 64).foldl (sha256Round w)
    (h.getD 0 0, h.getD 1 0, h.getD 2 0, h.getD 3 0,
     h.getD 4 0, h.getD 5 0, h.getD 6 0, h.getD 7 0)
  match fin with
  | (a, b, c, d, e, f, g, hh) =>
    [w32 (a + h.getD 0 0), w32 (b + h.getD 1 0), w32 (c + h.getD 2 0),
     w32 (d + h.getD 3 0), w32 (e + h.getD 4 0), w32 (f + h.getD 5 0),
     w32 (g + h.getD 6 0), w32 (hh + h.getD 7 0)]

/-- Padding for SHA-256: a 0x80 byte, zeros to 56 mod 64, then the bit
length in 8 big-endian bytes. -/
def sha256Pad (msg : List Nat) : List Nat :=
  let len := msg.length
  let bitLen := 8 * len
  msg ++ [128] ++ List.replicate ((119 - (len % 64)) % 64) 0 ++
    ((List.range 8).map fun j => (bitLen >>> (56 - 8 * j)) % 256)

/-- Read a big-endian 32-bit word from 4 bytes. -/
def beWord (bs : List Nat) : Nat :=
  (List.range 4).foldl (fun acc j => acc * 256 + bs.getD j 0) 0

/-- The 16 words of block `i` of a padded message. -/
def sha256BlockWords (padded : List Nat) (i : Nat) : List Nat :=
  (List.range 16).map fun j => beWord ((padded.drop (64 * i + 4 * j)).take 4)

/-- SHA-256 digest (8 words) of a byte list. -/
def sha256Words (msg : List Nat) : List Nat :=
  let padded := sha256Pad msg
  (List.range (padded.length / 64)).foldl
    (fun h i => sha256Compress h (sha256BlockWords padded i)) sha256H0

/-- Lowercase hex digit. -/
def hexDigitChar (n : Nat) : Char :=
  Char.ofNat (if n < 10 then 48 + n else 87 + n)

/-- A 32-bit word as 8 lowercase hex characters. -/
def wordHexChars (n : Nat) : List Char :=
  (List.range 8).map fun k => hexDigitChar ((n >>> (28 - 4 * k)) % 16)

/-- Python hashlib.sha256(msg).hexdigest(). -/
def sha256Hex (msg : List Nat) : String :=
  String.mk ((sha256Words msg).map wordHexChars).flatten

/-- UTF-8 encoding of one code point (Python str.encode()). -/
def utf8Bytes (c : Nat) : List Nat :=
  if c < 128 then [c]
  else if c < 2048 then
    [192 + (c >>> 6), 128 + (c &&& 63)]
  else if c < 65536 then
    [224 + (c >>> 12), 128 + ((c >>> 6) &&& 63), 128 + (c &&& 63)]
  else
    [240 + (c >>> 18), 128 + ((c >>> 12) &&& 63),
     128 + ((c >>> 6) &&& 63), 128 + (c &&& 63)]

/-- UTF-8 bytes of a string. -/
def strBytes (s : String) : List Nat :=
  (s.data.map fun c => utf8Bytes c.toNat).flatten

/-! ## Data model: Document rows, the operation log, users
(apps/documents/models.py, apps/collaboration/models.py) -/

/-- A row of the documents table.  `current_version` is a
PositiveIntegerField with default 1 (apps/documents/models.py line 79);
the soft-delete flag comes from SoftDeleteModel. -/
structure Doc where
  is_deleted : Bool
  current_version : Nat
  last_edited_by : Option String
  last_edited_at : Option Nat
  deriving DecidableEq, Repr

/-- A row of the OperationLog table: the persisted CRDT operation. -/
structure OperationRec where
  operation_id : String
  document_id : String
  user_id : String
  operation_type : String
  payload : List Nat
  version : Nat
  client_id : String
  timestamp : Nat
  deriving DecidableEq, Repr

/-- A UserActivity row created by UserService.log_activity. -/
structure UserActivityRec where
  user_id : String
  activity_type : String
  deriving DecidableEq, Repr

/-- A row of the users table.  User extends SoftDeleteModel, and
User.objects is UserManager(BaseUserManager, SoftDeleteManager), whose
get_queryset filters is_deleted=False: a soft-deleted row still exists
physically (so foreign keys to it hold) but User.objects.get raises
DoesNotExist for it. -/
structure UserRow where
  is_deleted : Bool
  deriving DecidableEq, Repr

/-- The database plus the Django cache, as far as process_operation and
compress_operation_logs touch them.  `documents` is keyed by primary key;
`users` is the physical users table keyed by primary key (none = no row
at all); `docStateCache` says whether the cache key doc_state:id is
populated. -/
structure DBState where
  documents : String → Option Doc
  opLog : List OperationRec
  users : String → Option UserRow
  activities : List UserActivityRec
  docStateCache : String → Bool

/-- Is uid free of the soft-deleted-author hazard?  True when the user
row is absent (the submission then aborts wholly, consuming nothing) or
present and not soft-deleted (the submission succeeds); false exactly
for a soft-deleted row, the one case where a failure commits partial
state. -/
def authorNotSoftDeleted (db : DBState) (uid : String) : Bool :=
  match db.users uid with
  | some u => !u.is_deleted
  | none => true

/-- Document.objects.get(id=..., is_deleted=False): also the default
SoftDeleteManager lookup, which filters is_deleted=False. -/
def getDoc (db : DBState) (document_id : String) : Option Doc :=
  match db.documents document_id with
  | some d => if d.is_deleted then none else some d
  | none => none

/-- The operation dict sent by the client; `none` fields model absent
keys (dict.get returning None). -/
structure OperationData where
  payload : Option String
  type : Option String
  client_id : Option String
  deriving DecidableEq, Repr

/-- Outcome of one OperationProcessor.process_operation call as its
caller sees it: the success dict, a failure dict, or an exception that
escapes the call (such as the IntegrityError raised when the deferred
foreign-key check fails while the atomic block commits — PostgreSQL
foreign keys are created DEFERRABLE INITIALLY DEFERRED, so the commit
inside transaction.atomic's exit is where a dangling author id
surfaces, after the function body has already returned). -/
inductive OpResult where
  | ok (operation_id : String) (payload : String) (version : Nat)
  | err (error : String)
  | raised (exc : String)
  deriving DecidableEq, Repr

def OpResult.isOk : OpResult → Bool
  | .ok _ _ _ => true
  | .err _ => false
  | .raised _ => false

/-! ## OperationProcessor (apps/collaboration/services.py lines 133-292) -/

/-- OperationProcessor._validate_operation: both the payload and the type
keys must be present. -/
def validate_operation (operation_data : OperationData) : Bool :=
  operation_data.payload.isSome && operation_data.type.isSome

/-- OperationProcessor._generate_operation_id: sha256 of
"{document_id}:{user_id}:{message_id}:{version}", hexdigest truncated to
32 characters. -/
def generate_operation_id (document_id user_id message_id : String)
    (version : Nat) : String :=
  (sha256Hex (strBytes
    (document_id ++ ":" ++ user_id ++ ":" ++ message_id ++ ":" ++
     toString version))).take 32

/-- Value of one hex digit, as accepted by Python bytes.fromhex. -/
def hexVal (c : Char) : Option Nat :=
  if 48 ≤ c.toNat ∧ c.toNat ≤ 57 then some (c.toNat - 48)
  else if 97 ≤ c.toNat ∧ c.toNat ≤ 102 then some (c.toNat - 87)
  else if 65 ≤ c.toNat ∧ c.toNat ≤ 70 then some (c.toNat - 55)
  else none

/-- Python bytes.fromhex: pairs of hex digits; `none` models the
ValueError raised on a stray digit or odd length. -/
def bytesFromHex : List Char → Option (List Nat)
  | [] => some []
  | c1 :: c2 :: rest =>
    match hexVal c1, hexVal c2, bytesFromHex rest with
    | some hi, some lo, some bs => some ((16 * hi + lo) :: bs)
    | _, _, _ => none
  | [_] => none

/-- OperationProcessor.process_operation.  The function body catches
every exception and returns an error dict, so exceptions raised inside
the body never roll the @transaction.atomic block back by themselves;
what happens then depends on the author row.  If the author row exists
but is soft-deleted, the inserted operation row and the document update
satisfy their foreign keys, User.objects.get (soft-delete filtered)
raises DoesNotExist after those saves, the body catches it, and the
commit persists the partial writes although a failure dict is returned.
If the author row is absent altogether, the inserted rows violate the
foreign keys to users; the constraint check, deferred to the commit at
the atomic block's exit (or rollback marking inside save), aborts the
whole transaction, and the IntegrityError escapes the call in place of
its return value: no partial state.  `now_us` is int(time.time()*1e6).
Cache invalidation of doc_state:{id} is modelled on docStateCache. -/
def process_operation (db : DBState) (document_id user_id : String)
    (operation_data : OperationData) (client_version : Nat)
    (message_id : String) (now_us : Nat) : DBState × OpResult :=
  match getDoc db document_id with
  | none => (db, .err "Document not found")
  | some document =>
    if !validate_operation operation_data then
      (db, .err "Invalid operation format")
    else
      let server_version := document.current_version + 1
      let operation_id :=
        generate_operation_id document_id user_id message_id server_version
      if db.opLog.any fun op => op.operation_id == operation_id then
        (db, .err "Duplicate operation")
      else
        let payload_hex := operation_data.payload.getD ""
        if payload_hex == "" then
          (db, .err "Missing payload")
        else
          match bytesFromHex payload_hex.data with
          | none => (db, .err "Internal server error")
          | some payload_binary =>
            let operation : OperationRec :=
              { operation_id := operation_id
                document_id := document_id
                user_id := user_id
                operation_type := operation_data.type.getD "update"
                payload := payload_binary
                version := server_version
                client_id := operation_data.client_id.getD user_id
                timestamp := now_us }
            let db1 : DBState :=
              { db with
                opLog := db.opLog ++ [operation]
                documents := fun i =>
                  if i = document_id then
                    some { document with
                           current_version := server_version
                           last_edited_by := some user_id
                           last_edited_at := some now_us }
                  else db.documents i
                docStateCache := fun k =>
                  if k = "doc_state:" ++ document_id then false
                  else db.docStateCache k }
            match db.users user_id with
            | none =>
              (db, .raised "IntegrityError")
            | some u =>
              if u.is_deleted then
                (db1, .err "Internal server error")
              else
                ({ db1 with activities :=
                     db1.activities ++ [{ user_id := user_id,
                                          activity_type := "document_edit" }] },
                 .ok operation_id payload_hex server_version)

/-- One client submission against a fixed document. -/
structure Submission where
  user_id : String
  operation_data : OperationData
  client_version : Nat
  message_id : String
  now_us : Nat

/-- A finite sequence of process_operation calls on one document,
collecting each call's result. -/
def runSubmits (db : DBState) (document_id : String) :
    List Submission → DBState × List OpResult
  | [] => (db, [])
  | s :: rest =>
    let r := process_operation db document_id s.user_id s.operation_data
      s.client_version s.message_id s.now_us
    let rr := runSubmits r.1 document_id rest
    (rr.1, r.2 :: rr.2)

/-- The versions carried by the successful acknowledgments, in order. -/
def ackedVersions : List OpResult → List Nat
  | [] => []
  | .ok _ _ v :: rs => v :: ackedVersions rs
  | .err _ :: rs => ackedVersions rs
  | .raised _ :: rs => ackedVersions rs

/-! ## Compaction task (apps/collaboration/tasks.py lines 31-70) -/

/-- Outcome of a Celery task body: a returned value or an uncaught
exception. -/
inductive TaskResult where
  | ok (count : Nat)
  | raised (message : String)
  deriving DecidableEq, Repr

/-- The compress_operation_logs task.  Django refuses .delete() on a
sliced queryset (the [500:] slice), raising
TypeError("Cannot use 'limit' or 'offset' with delete().");
the try block only catches Document.DoesNotExist, so for more than 1000
operations the exception escapes the task and nothing is deleted.  The
repository's own test (apps/collaboration/tests/test_tasks.py,
test_compress_operation_logs_over_threshold) documents this. -/
def compress_operation_logs (db : DBState) (document_id : String) :
    TaskResult :=
  match getDoc db document_id with
  | none => .ok 0
  | some _ =>
    let op_count :=
      (db.opLog.filter fun op => op.document_id == document_id).length
    if 1000 < op_count then
      .raised "Cannot use limit or offset with delete"
    else
      .ok 0

/-! ## Redis model: string keys, sets and hashes with absolute expiry
times in seconds; `none` expiry means the key persists.  Reads apply
lazy expiry, as Redis does. -/

/-- Presence hash fields.  A field a hash was created without reads back
through the Python .get defaults of get_active_users, so the defaults
here are exactly those read-side defaults. -/
structure PresenceHash where
  display_name : String
  avatar : String
  color : String
  cursor : String
  last_activity : Nat
  deriving DecidableEq, Repr

structure RedisState where
  strings : String → Option (String × Option Nat)
  sets : String → Option (List String × Option Nat)
  hashes : String → Option (PresenceHash × Option Nat)

/-- Is a value with this expiry live at time `t`? -/
def redisLive (t : Nat) : Option Nat → Bool
  | none => true
  | some e => t < e

/-- GET with lazy expiry. -/
def redisGetStr (r : RedisState) (t : Nat) (k : String) : Option String :=
  match r.strings k with
  | some (v, e) => if redisLive t e then some v else none
  | none => none

/-- SMEMBERS with lazy expiry. -/
def redisSetMembers (r : RedisState) (t : Nat) (k : String) : List String :=
  match r.sets k with
  | some (ms, e) => if redisLive t e then ms else []
  | none => []

/-- HGETALL with lazy expiry. -/
def redisHash (r : RedisState) (t : Nat) (k : String) :
    Option PresenceHash :=
  match r.hashes k with
  | some (h, e) => if redisLive t e then some h else none
  | none => none

/-! ## Block Lock Manager (apps/collaboration/services.py lines 479-532) -/

/-- The Redis key block_lock:{document_id}:{block_id}. -/
def lockKeyOf (document_id block_id : String) : String :=
  "block_lock:" ++ document_id ++ ":" ++ block_id

/-- CollaborationService.acquire_block_lock: SET key user_id NX EX
timeout; returns whether the caller became the owner. -/
def acquire_block_lock (r : RedisState) (t : Nat)
    (document_id block_id user_id : String) (timeout : Nat := 30) :
    RedisState × Bool :=
  let lock_key := lockKeyOf document_id block_id
  match redisGetStr r t lock_key with
  | some _ => (r, false)
  | none =>
    ({ r with strings := fun k =>
         if k = lock_key then some (user_id, some (t + timeout))
         else r.strings k },
     true)

/-- CollaborationService.release_block_lock: the Lua script deletes the
key only when its value equals the caller, in one atomic step. -/
def release_block_lock (r : RedisState) (t : Nat)
    (document_id block_id user_id : String) : RedisState :=
  let lock_key := lockKeyOf document_id block_id
  match redisGetStr r t lock_key with
  | some owner =>
    if owner = user_id then
      { r with strings := fun k => if k = lock_key then none
                                   else r.strings k }
    else r
  | none => r

/-- CollaborationService.get_block_lock_owner. -/
def get_block_lock_owner (r : RedisState) (t : Nat)
    (document_id block_id : String) : Option String :=
  redisGetStr r t (lockKeyOf document_id block_id)

/-! ## PresenceService (apps/collaboration/services.py lines 295-410) -/

def PRESENCE_TTL : Nat := 60

/-- The Redis key presence:{document_id}:users. -/
def presSetKey (document_id : String) : String :=
  "presence:" ++ document_id ++ ":users"

/-- The Redis key presence:{document_id}:user:{user_id}. -/
def presUserKey (document_id user_id : String) : String :=
  "presence:" ++ document_id ++ ":user:" ++ user_id

/-- Profile data passed to add_user_presence by create_session. -/
structure UserData where
  display_name : String
  avatar : String
  color : String
  deriving DecidableEq, Repr

/-- Base hash for HSET on a missing or expired key: every other field is
absent, and absent fields read back through the .get defaults of
get_active_users ('' , '', '#6366f1', '{}', 0). -/
def emptyPresenceHash : PresenceHash :=
  { display_name := "", avatar := "", color := "#6366f1",
    cursor := "\x7b\x7d", last_activity := 0 }

/-- Cursor JSON for an empty dict, json.dumps of the empty cursor. -/
def emptyCursorJson : String := "\x7b\x7d"

/-- PresenceService.add_user_presence: SADD to the active-users set and
EXPIRE it, then HMSET the full user hash and EXPIRE it.  Both keys end
up with expiry t + PRESENCE_TTL. -/
def add_user_presence (r : RedisState) (t : Nat)
    (document_id user_id : String) (user_data : UserData) : RedisState :=
  let set_key := presSetKey document_id
  let ms := redisSetMembers r t set_key
  let ms2 := if ms.contains user_id then ms else ms ++ [user_id]
  let user_key := presUserKey document_id user_id
  let h : PresenceHash :=
    { display_name := user_data.display_name
      avatar := user_data.avatar
      color := user_data.color
      cursor := emptyCursorJson
      last_activity := t }
  { r with
    sets := fun k => if k = set_key then some (ms2, some (t + PRESENCE_TTL))
                     else r.sets k
    hashes := fun k => if k = user_key then some (h, some (t + PRESENCE_TTL))
                       else r.hashes k }

/-- PresenceService.update_cursor: HSET cursor and last_activity, then
EXPIRE the user hash.  The active-users set key is not touched. -/
def update_cursor (r : RedisState) (t : Nat)
    (document_id user_id : String) (cursor_data : String) : RedisState :=
  let user_key := presUserKey document_id user_id
  let h0 := (redisHash r t user_key).getD emptyPresenceHash
  let h1 := { h0 with cursor := cursor_data, last_activity := t }
  { r with hashes := fun k =>
      if k = user_key then some (h1, some (t + PRESENCE_TTL))
      else r.hashes k }

/-- PresenceService.update_activity: HSET last_activity, then EXPIRE the
user hash.  The active-users set key is not touched. -/
def update_activity (r : RedisState) (t : Nat)
    (document_id user_id : String) : RedisState :=
  let user_key := presUserKey document_id user_id
  let h0 := (redisHash r t user_key).getD emptyPresenceHash
  let h1 := { h0 with last_activity := t }
  { r with hashes := fun k =>
      if k = user_key then some (h1, some (t + PRESENCE_TTL))
      else r.hashes k }

/-- PresenceService.remove_user_presence: SREM from the active set and
DELETE the user hash. -/
def remove_user_presence (r : RedisState) (t : Nat)
    (document_id user_id : String) : RedisState :=
  let set_key := presSetKey document_id
  let user_key := presUserKey document_id user_id
  { r with
    sets := fun k =>
      if k = set_key then
        match r.sets k with
        | some (ms, e) => some (ms.filter (· ≠ user_id), e)
        | none => none
      else r.sets k
    hashes := fun k => if k = user_key then none else r.hashes k }

/-- One entry of the get_active_users listing. -/
structure ActiveUser where
  user_id : String
  display_name : String
  avatar : String
  color : String
  cursor : String
  last_activity : Nat
  deriving DecidableEq, Repr

/-- PresenceService.get_active_users: SMEMBERS on the active-users set,
then HGETALL per user, skipping users whose hash is gone. -/
def get_active_users (r : RedisState) (t : Nat) (document_id : String) :
    List ActiveUser :=
  (redisSetMembers r t (presSetKey document_id)).filterMap fun uid =>
    match redisHash r t (presUserKey document_id uid) with
    | some h =>
      some { user_id := uid
             display_name := h.display_name
             avatar := h.avatar
             color := h.color
             cursor := h.cursor
             last_activity := h.last_activity }
    | none => none

/-! ## Broadcast fan-out (apps/collaboration/consumers.py).  A group_send
delivers the event dict once to every channel in the document group; the
per-event consumer methods below decide what, if anything, reaches that
channel's client. -/

/-- One live WebSocket connection in a document group. -/
structure Session where
  channel_name : String
  user_id : String
  deriving DecidableEq, Repr

/-- The event dicts the DocumentConsumer handlers put on the group.
Constructors carrying an `exclude_channel` field mirror the dicts built
with that key; block.locked, block.unlocked, user.joined and user.left
dicts are built without it. -/
inductive GroupEvent where
  | operationBroadcast (operation_id payload : String) (version : Nat)
      (user_id : String) (exclude_channel : Option String)
  | cursorUpdate (user_id cursor : String) (exclude_channel : Option String)
  | awarenessUpdate (user_id state : String) (exclude_channel : Option String)
  | typingStarted (user_id : String) (block_id : Option String)
      (exclude_channel : Option String)
  | typingStopped (user_id : String) (block_id : Option String)
      (exclude_channel : Option String)
  | blockLocked (block_id user_id : String)
  | blockUnlocked (block_id user_id : String)
  | userJoined (user_id : String)
  | userLeft (user_id : String)
  deriving DecidableEq, Repr

/-- Messages the group handlers send on to their client. -/
inductive OutMsg where
  | operation (operation_id payload : String) (version : Nat) (user_id : String)
  | cursorUpdate (user_id cursor : String)
  | awareness (user_id state : String)
  | typingStart (user_id : String) (block_id : Option String)
  | typingStop (user_id : String) (block_id : Option String)
  | blockLocked (block_id user_id : String)
  | blockUnlocked (block_id user_id : String)
  | userJoined (user_id : String)
  | userLeft (user_id : String)
  deriving DecidableEq, Repr

/-- The event.get('exclude_channel') of each event dict. -/
def GroupEvent.excludeOf : GroupEvent → Option String
  | .operationBroadcast _ _ _ _ exch => exch
  | .cursorUpdate _ _ exch => exch
  | .awarenessUpdate _ _ exch => exch
  | .typingStarted _ _ exch => exch
  | .typingStopped _ _ exch => exch
  | .blockLocked _ _ => none
  | .blockUnlocked _ _ => none
  | .userJoined _ => none
  | .userLeft _ => none

/-- What session `s` forwards to its client on receiving a group event:
operation_broadcast, cursor_update, awareness_update, typing_started and
typing_stopped return early when exclude_channel equals the session's
channel name; block_locked, block_unlocked, user_joined and user_left
have no such check (consumers.py lines 388-506). -/
def handleGroupEvent (s : Session) : GroupEvent → Option OutMsg
  | .operationBroadcast oid pay v uid exch =>
    if exch = some s.channel_name then none
    else some (.operation oid pay v uid)
  | .cursorUpdate uid cur exch =>
    if exch = some s.channel_name then none else some (.cursorUpdate uid cur)
  | .awarenessUpdate uid stt exch =>
    if exch = some s.channel_name then none else some (.awareness uid stt)
  | .typingStarted uid bid exch =>
    if exch = some s.channel_name then none else some (.typingStart uid bid)
  | .typingStopped uid bid exch =>
    if exch = some s.channel_name then none else some (.typingStop uid bid)
  | .blockLocked bid uid => some (.blockLocked bid uid)
  | .blockUnlocked bid uid => some (.blockUnlocked bid uid)
  | .userJoined uid => some (.userJoined uid)
  | .userLeft uid => some (.userLeft uid)

/-- channel_layer.group_send: every channel in the group receives the
event exactly once and runs its handler; the result pairs each reached
channel with what its client was sent. -/
def groupSend (group : List Session) (e : GroupEvent) :
    List (String × OutMsg) :=
  group.filterMap fun s =>
    (handleGroupEvent s e).map fun m => (s.channel_name, m)

/-- The event handle_operation fans out: exclude_channel is set to the
sender's own channel ("Don't send back to sender"). -/
def sendOperationEvent (sender : Session) (operation_id payload : String)
    (version : Nat) : GroupEvent :=
  .operationBroadcast operation_id payload version sender.user_id
    (some sender.channel_name)

/-- The event handle_cursor_update fans out. -/
def sendCursorEvent (sender : Session) (cursor : String) : GroupEvent :=
  .cursorUpdate sender.user_id cursor (some sender.channel_name)

/-- The event handle_awareness_update fans out. -/
def sendAwarenessEvent (sender : Session) (state : String) : GroupEvent :=
  .awarenessUpdate sender.user_id state (some sender.channel_name)

/-- The event handle_typing_start fans out. -/
def sendTypingStartEvent (sender : Session) (block_id : Option String) :
    GroupEvent :=
  .typingStarted sender.user_id block_id (some sender.channel_name)

/-- The event handle_typing_stop fans out. -/
def sendTypingStopEvent (sender : Session) (block_id : Option String) :
    GroupEvent :=
  .typingStopped sender.user_id block_id (some sender.channel_name)

/-- The event handle_block_lock fans out on success: no exclude_channel
key. -/
def sendBlockLockedEvent (sender : Session) (block_id : String) :
    GroupEvent :=
  .blockLocked block_id sender.user_id

/-- The event handle_block_unlock fans out: no exclude_channel key. -/
def sendBlockUnlockedEvent (sender : Session) (block_id : String) :
    GroupEvent :=
  .blockUnlocked block_id sender.user_id

/-- The event connect fans out after the initial sync: no
exclude_channel key. -/
def sendUserJoinedEvent (sender : Session) : GroupEvent :=
  .userJoined sender.user_id

/-- The event disconnect fans out: no exclude_channel key. -/
def sendUserLeftEvent (sender : Session) : GroupEvent :=
  .userLeft sender.user_id

/-- channel_layer.group_discard: the channel stops being a member of the
group. -/
def groupDiscard (group : List Session) (channel : String) : List Session :=
  group.filter fun s => s.channel_name ≠ channel

/-- The disconnect flow (consumers.py lines 107-131): group_discard of
the leaver's channel runs before the user.left group_send, so that
fan-out reaches only the remaining sessions. -/
def disconnectFanout (group : List Session) (leaver : Session) :
    List (String × OutMsg) :=
  groupSend (groupDiscard group leaver.channel_name)
    (sendUserLeftEvent leaver)

/-! ## Connection Gateway receive loop and Idempotency Guard
(apps/collaboration/consumers.py lines 133-179, apps/core/utils.py
lines 87-122) -/

/-- IdempotencyService.IDEMPOTENCY_TTL, seconds. -/
def IDEMPOTENCY_TTL : Nat := 300

/-- IdempotencyService.is_duplicate on a cache mapping keys to absolute
expiry times: a Django cache entry is returned until its timeout
elapses. -/
def is_duplicate (cacheF : String → Option Nat) (t : Nat)
    (message_id : String) : Bool :=
  match cacheF ("idempotency:" ++ message_id) with
  | some e => t < e
  | none => false

/-- IdempotencyService.mark_processed: cache.set with IDEMPOTENCY_TTL. -/
def mark_processed (cacheF : String → Option Nat) (t : Nat)
    (message_id : String) : String → Option Nat :=
  fun k => if k = "idempotency:" ++ message_id then some (t + IDEMPOTENCY_TTL)
           else cacheF k

/-- Gateway-visible state: the idempotency cache plus whatever state σ
the routed message handlers own (documents, Redis, sessions).  The
handlers never touch the idempotency cache (none of the handle_*
methods calls IdempotencyService). -/
structure GatewayState (σ : Type) where
  cache : String → Option Nat
  inner : σ

/-- Observable effects of one receive call. -/
inductive RecvAction where
  | handlerInvoked (mtype : String)
  | sentError (message : String)
  | sentJson (tag : String)
  | closed (code : Nat)
  deriving DecidableEq, Repr

/-- One inbound WebSocket frame, after json.loads: either invalid JSON
or a dict with optional type and id keys. -/
inductive InboundText where
  | malformed
  | msg (mtype : Option String) (mid : Option String)
  deriving DecidableEq, Repr

/-- Python str(None) versus the type string, as interpolated into the
unknown-type error message. -/
def optTypeStr : Option String → String
  | some s => s
  | none => "None"

/-- A handler behaviour: from the inner state, the new inner state, the
actions it performed before returning or raising, and whether it raised
(the receive loop catches the exception and sends a generic error).
Handlers are abstract here: the duplicate-drop path returns before the
dispatch table is consulted, so the gateway properties hold for every
handler table. -/
def HandlerFun (σ : Type) := σ → σ × List RecvAction × Bool

/-- DocumentConsumer.receive: parse, consult the Idempotency Guard (a
duplicate returns with no reply), mark the id processed, then dispatch
on the type key; an unknown type gets a per-message error reply, and a
handler exception is caught and answered with a generic error. -/
def receive (σ : Type) (handlers : String → Option (HandlerFun σ))
    (st : GatewayState σ) (t : Nat) : InboundText →
    GatewayState σ × List RecvAction
  | .malformed => (st, [.sentError "Invalid JSON"])
  | .msg mtype mid =>
    let dup := match mid with
      | some i => is_duplicate st.cache t i
      | none => false
    if dup then
      (st, [])
    else
      let cache1 := match mid with
        | some i => mark_processed st.cache t i
        | none => st.cache
      match handlers (optTypeStr mtype) with
      | some h =>
        let r := h st.inner
        ({ cache := cache1, inner := r.1 },
         .handlerInvoked (optTypeStr mtype) :: r.2.1 ++
           (if r.2.2 then [.sentError "Internal server error"] else []))
      | none =>
        ({ cache := cache1, inner := st.inner },
         [.sentError ("Unknown message type: " ++ optTypeStr mtype)])

/-! ## Concrete fixtures for counterexamples and witnesses -/

/-- A freshly created document: current_version takes the model default 1. -/
def exampleDoc : Doc :=
  { is_deleted := false, current_version := 1,
    last_edited_by := none, last_edited_at := none }

/-- A database holding document d1, a live user u1 and a soft-deleted
user udel, with an empty operation log. -/
def exampleDb : DBState :=
  { documents := fun i => if i = "d1" then some exampleDoc else none
    opLog := []
    users := fun u =>
      if u = "u1" then some { is_deleted := false }
      else if u = "udel" then some { is_deleted := true }
      else none
    activities := []
    docStateCache := fun _ => true }

/-- A well-formed client operation dict. -/
def exampleOpData : OperationData :=
  { payload := some "de", type := some "update", client_id := some "c1" }

/-- An operation dict lacking the payload key. -/
def noPayloadOpData : OperationData :=
  { payload := none, type := some "update", client_id := some "c1" }

/-- An operation dict whose payload key is present but empty. -/
def emptyPayloadOpData : OperationData :=
  { payload := some "", type := some "update", client_id := some "c1" }

/-- A valid submission by u1. -/
def exampleSubmission : Submission :=
  { user_id := "u1", operation_data := exampleOpData, client_version := 1,
    message_id := "m1", now_us := 1000 }

/-- A second valid submission by u1. -/
def exampleSubmission2 : Submission :=
  { user_id := "u1", operation_data := exampleOpData, client_version := 2,
    message_id := "m2", now_us := 2000 }

/-- A submission by u1 that fails validation (empty payload value). -/
def failingSubmission : Submission :=
  { user_id := "u1", operation_data := emptyPayloadOpData,
    client_version := 1, message_id := "m3", now_us := 1500 }

/-- A submission authored by an id with no user row at all. -/
def ghostSubmission : Submission :=
  { user_id := "ghost", operation_data := exampleOpData,
    client_version := 1, message_id := "m4", now_us := 1700 }

/-- The database after u1's first successful submission of m1. -/
def dbAfterFirstSubmit : DBState :=
  (process_operation exampleDb "d1" "u1" exampleOpData 1 "m1" 1000).1

/-- An operation-log row, indexed for bulk fixtures. -/
def mkOpRec (i : Nat) : OperationRec :=
  { operation_id := toString i, document_id := "d1", user_id := "u1",
    operation_type := "update", payload := [], version := i,
    client_id := "c1", timestamp := i }

/-- The database of d1 carrying 1001 logged operations. -/
def bigDb : DBState :=
  { exampleDb with opLog := (List.range 1001).map mkOpRec }

/-- An empty Redis. -/
def emptyRedis : RedisState :=
  { strings := fun _ => none, sets := fun _ => none, hashes := fun _ => none }

/-- A Redis where u1 holds the lock on (d1, b1) with lease expiry 30. -/
def exampleLockRedis : RedisState :=
  { emptyRedis with
    strings := fun k => if k = lockKeyOf "d1" "b1" then some ("u1", some 30)
                        else none }

/-- Profile data for the presence fixtures. -/
def exampleUserData : UserData :=
  { display_name := "Alice", avatar := "", color := "#ef4444" }

/-- Presence trace: u1 joins d1 at t = 0 and refreshes via
update_activity at t = 50, inside the 60 s entry TTL. -/
def presenceTrace : RedisState :=
  update_activity (add_user_presence emptyRedis 0 "d1" "u1" exampleUserData)
    50 "d1" "u1"

/-- Two live sessions on the same document group. -/
def sessA : Session := { channel_name := "chA", user_id := "uA" }

def sessB : Session := { channel_name := "chB", user_id := "uB" }

/-- A handler table for gateway witnesses: operation messages reach a
handler that mutates the inner state and then raises. -/
def exampleHandlers : String → Option (HandlerFun Nat) :=
  fun mtype => if mtype = "operation"
               then some (fun n => (n + 1, [], true))
               else none

/-- A gateway whose idempotency cache already holds marker m1 until 300. -/
def markedGateway : GatewayState Nat :=
  { cache := fun k => if k = "idempotency:m1" then some 300 else none
    inner := 0 }

/-- A gateway with an empty idempotency cache. -/
def freshGateway : GatewayState Nat :=
  { cache := fun _ => none, inner := 0 }

/-! ## Helper lemmas -/

theorem getDoc_not_deleted {db : DBState} {did : String} {d : Doc}
    (h : getDoc db did = some d) : d.is_deleted = false := by
  unfold getDoc at h
  cases hd : db.documents did with
  | none => rw [hd] at h; exact absurd h (by simp)
  | some d0 =>
    rw [hd] at h
    by_cases hdel : d0.is_deleted
    · simp [hdel] at h
    · simp [hdel] at h; rw [← h]; simpa using hdel

theorem process_operation_step (db : DBState) (did uid : String)
    (od : OperationData) (cv : Nat) (mid : String) (now : Nat)
    (hu : authorNotSoftDeleted db uid = true) :
    ((process_operation db did uid od cv mid now).2.isOk = false ∧
     (process_operation db did uid od cv mid now).1 = db) ∨
    (∃ doc oid pay,
      getDoc db did = some doc ∧
      (process_operation db did uid od cv mid now).2 =
        .ok oid pay (doc.current_version + 1) ∧
      getDoc (process_operation db did uid od cv mid now).1 did =
        some { doc with current_version := doc.current_version + 1,
                        last_edited_by := some uid,
                        last_edited_at := some now } ∧
      (process_operation db did uid od cv mid now).1.users = db.users) := by
  unfold process_operation
  cases hdoc : getDoc db did with
  | none => left; exact ⟨rfl, rfl⟩
  | some document =>
    dsimp only
    split
    · left; exact ⟨rfl, rfl⟩
    · split
      · left; exact ⟨rfl, rfl⟩
      · split
        · left; exact ⟨rfl, rfl⟩
        · cases hhex : bytesFromHex (od.payload.getD "").data with
          | none => left; exact ⟨rfl, rfl⟩
          | some bin =>
            dsimp only
            cases hru : db.users uid with
            | none => left; exact ⟨rfl, rfl⟩
            | some u =>
              have hudel : u.is_deleted = false := by
                unfold authorNotSoftDeleted at hu
                rw [hru] at hu
                simpa using hu
              dsimp only
              rw [if_neg (by simp [hudel])]
              right
              refine ⟨document, _, _, rfl, rfl, ?_, rfl⟩
              have hdel := getDoc_not_deleted hdoc
              simp [getDoc, hdel]

theorem ackedVersions_ok (oid pay : String) (v : Nat) (rs : List OpResult) :
    ackedVersions (.ok oid pay v :: rs) = v :: ackedVersions rs := rfl

theorem ackedVersions_err (e : String) (rs : List OpResult) :
    ackedVersions (.err e :: rs) = ackedVersions rs := rfl

theorem ackedVersions_raised (e : String) (rs : List OpResult) :
    ackedVersions (.raised e :: rs) = ackedVersions rs := rfl

theorem runSubmits_cons (db : DBState) (did : String) (s : Submission)
    (rest : List Submission) :
    runSubmits db did (s :: rest) =
      ((runSubmits (process_operation db did s.user_id s.operation_data
          s.client_version s.message_id s.now_us).1 did rest).1,
       (process_operation db did s.user_id s.operation_data s.client_version
          s.message_id s.now_us).2 ::
       (runSubmits (process_operation db did s.user_id s.operation_data
          s.client_version s.message_id s.now_us).1 did rest).2) := rfl

/-- Claim C1 (amended).  For a document whose submissions' authors have
no soft-deleted user row (absent rows are fine: such a submission aborts
wholly and consumes nothing), the successfully acknowledged versions
form the consecutive range starting one above the document's initial
current_version. -/
theorem C1_versions_consecutive (db : DBState) (document_id : String)
    (subs : List Submission) (doc : Doc)
    (hdoc : getDoc db document_id = some doc)
    (husers : ∀ s ∈ subs, authorNotSoftDeleted db s.user_id = true) :
    ackedVersions (runSubmits db document_id subs).2 =
      List.range' (doc.current_version + 1)
        (ackedVersions (runSubmits db document_id subs).2).length := by
  induction subs generalizing db doc with
  | nil => simp [runSubmits, ackedVersions]
  | cons s rest ih =>
    have hu : authorNotSoftDeleted db s.user_id = true :=
      husers s (List.mem_cons_self s rest)
    rcases process_operation_step db document_id s.user_id s.operation_data
        s.client_version s.message_id s.now_us hu with
      ⟨hfail, hst⟩ | ⟨doc2, oid, pay, hdoc2, hok, hdoc3, hus⟩
    · rw [runSubmits_cons]
      cases hres : (process_operation db document_id s.user_id
          s.operation_data s.client_version s.message_id s.now_us).2 with
      | ok oid pay v => rw [hres] at hfail; simp [OpResult.isOk] at hfail
      | err e =>
        dsimp only
        rw [ackedVersions_err, hst]
        exact ih db doc hdoc fun s' hs' => husers s' (List.mem_cons_of_mem s hs')
      | raised e =>
        dsimp only
        rw [ackedVersions_raised, hst]
        exact ih db doc hdoc fun s' hs' => husers s' (List.mem_cons_of_mem s hs')
    · rw [hdoc] at hdoc2
      have hdoc2' : doc2 = doc := (Option.some.inj hdoc2).symm
      subst hdoc2'
      rw [runSubmits_cons]
      dsimp only
      rw [hok, ackedVersions_ok]
      have husers' : ∀ s' ∈ rest,
          authorNotSoftDeleted (process_operation db document_id s.user_id
            s.operation_data s.client_version s.message_id s.now_us).1
            s'.user_id = true := by
        intro s' hs'
        have h2 := husers s' (List.mem_cons_of_mem s hs')
        unfold authorNotSoftDeleted at h2 ⊢
        rw [hus]
        exact h2
      have hrec := ih (process_operation db document_id s.user_id
          s.operation_data s.client_version s.message_id s.now_us).1 _ hdoc3 husers'
      rw [hrec]
      simp [List.range'_succ]

set_option maxRecDepth 400000 in
/-- Claim C1 counterexample (as stated): a fresh document has
current_version 1, so its single successful submission acknowledges
version 2; the acked set for N = 1 is not {1}. -/
theorem C1_counterexample :
    (ackedVersions (runSubmits exampleDb "d1" [exampleSubmission]).2).length = 1 ∧
    ackedVersions (runSubmits exampleDb "d1" [exampleSubmission]).2 ≠
      List.range' 1 1 := by decide

/-- Witness for C1: a concrete four-submission run (success, failed
validation, absent-author abort, success) acknowledges exactly [2, 3]. -/
theorem C1_witness :
    ackedVersions (runSubmits exampleDb "d1"
      [exampleSubmission, failingSubmission, ghostSubmission,
       exampleSubmission2]).2 =
    List.range' (exampleDoc.current_version + 1)
      (ackedVersions (runSubmits exampleDb "d1"
        [exampleSubmission, failingSubmission, ghostSubmission,
         exampleSubmission2]).2).length :=
  C1_versions_consecutive exampleDb "d1"
    [exampleSubmission, failingSubmission, ghostSubmission,
     exampleSubmission2] exampleDoc (by decide) (by decide)

set_option maxRecDepth 400000 in
/-- Claim C2: violated by the code.  Resubmitting the same
(document, author, client_message_id) after a success derives a
different operation_id (the hash input embeds the freshly incremented
version), so the second call succeeds: two operations persist, a second
version is consumed, and DuplicateOperation is never returned. -/
theorem C2_resubmission_not_deduplicated :
    (process_operation exampleDb "d1" "u1" exampleOpData 1 "m1" 1000).2 =
      OpResult.ok (generate_operation_id "d1" "u1" "m1" 2) "de" 2 ∧
    (process_operation dbAfterFirstSubmit "d1" "u1" exampleOpData 1 "m1" 2000).2 =
      OpResult.ok (generate_operation_id "d1" "u1" "m1" 3) "de" 3 ∧
    (process_operation dbAfterFirstSubmit "d1" "u1" exampleOpData 1 "m1"
      2000).1.opLog.length = 2 ∧
    getDoc (process_operation dbAfterFirstSubmit "d1" "u1" exampleOpData 1 "m1"
      2000).1 "d1" =
      some { is_deleted := false, current_version := 3,
             last_edited_by := some "u1", last_edited_at := some 2000 } := by
  decide

set_option maxRecDepth 400000 in
set_option maxRecDepth 400000 in
/-- Claim C3: violated by the code.  A submission authored by the
soft-deleted user udel returns the internal-error failure, yet the
operation row persists and current_version advances: the inserted rows
satisfy their foreign keys (the user row physically exists), the
soft-delete-filtered User.objects.get raises DoesNotExist after the
saves, and the exception is caught inside the atomic block, which then
commits.  By contrast a wholly absent author (ghost) violates the
deferred foreign-key check, so the commit aborts, the IntegrityError
escapes the call, and no partial state is left. -/
theorem C3_failed_submit_leaves_partial_state :
    (process_operation exampleDb "d1" "udel" exampleOpData 1 "m1" 1000).2 =
      OpResult.err "Internal server error" ∧
    (process_operation exampleDb "d1" "udel" exampleOpData 1 "m1"
      1000).1.opLog.length = 1 ∧
    getDoc (process_operation exampleDb "d1" "udel" exampleOpData 1 "m1"
      1000).1 "d1" =
      some { is_deleted := false, current_version := 2,
             last_edited_by := some "udel", last_edited_at := some 1000 } ∧
    (process_operation exampleDb "d1" "ghost" exampleOpData 1 "m1" 1000).2 =
      OpResult.raised "IntegrityError" ∧
    (process_operation exampleDb "d1" "ghost" exampleOpData 1 "m1" 1000).1 =
      exampleDb := by
  refine ⟨by decide, by decide, by decide, by decide, rfl⟩

/-- Claim C8.  When the operation dict lacks the payload key or the
type key, process_operation of an existing document fails with the
invalid-operation error and returns the database unchanged: no
operation row, no version change. -/
theorem C8_invalid_shape_rejected (db : DBState) (document_id user_id : String)
    (od : OperationData) (cv : Nat) (mid : String) (now : Nat) (doc : Doc)
    (hdoc : getDoc db document_id = some doc)
    (hbad : od.payload = none ∨ od.type = none) :
    process_operation db document_id user_id od cv mid now =
      (db, .err "Invalid operation format") := by
  have hval : validate_operation od = false := by
    rcases hbad with h | h <;> simp [validate_operation, h]
  unfold process_operation
  rw [hdoc]
  dsimp only
  simp [hval]

theorem C8_witness :
    process_operation exampleDb "d1" "u1" noPayloadOpData 1 "m1" 1000 =
      (exampleDb, OpResult.err "Invalid operation format") :=
  C8_invalid_shape_rejected exampleDb "d1" "u1" noPayloadOpData 1 "m1" 1000
    exampleDoc (by decide) (Or.inl rfl)

set_option maxRecDepth 400000 in
/-- Claim C9: violated by the code.  With 1001 logged operations the
compaction crashes on the sliced-queryset delete instead of deleting
501 rows and returning 501; at or below 1000 operations it correctly
deletes nothing and returns 0. -/
theorem C9_compaction_raises_over_threshold :
    compress_operation_logs bigDb "d1" =
      TaskResult.raised "Cannot use limit or offset with delete" ∧
    compress_operation_logs exampleDb "d1" = TaskResult.ok 0 := by decide

/-- Claim C5.  On a held, unexpired lock: acquire by a different owner
fails and changes nothing, release by a non-owner is a no-op; once the
lease has expired, acquire by any caller succeeds and installs them. -/
theorem C5_lock_lease_exclusion (r : RedisState) (t t' : Nat)
    (document_id block_id owner other u : String) (exp : Option Nat)
    (hheld : r.strings (lockKeyOf document_id block_id) = some (owner, exp))
    (hlive : redisLive t exp = true)
    (hne : other ≠ owner)
    (hexp : redisLive t' exp = false) :
    (acquire_block_lock r t document_id block_id other 30).2 = false ∧
    (acquire_block_lock r t document_id block_id other 30).1 = r ∧
    get_block_lock_owner r t document_id block_id = some owner ∧
    release_block_lock r t document_id block_id other = r ∧
    (acquire_block_lock r t' document_id block_id u 30).2 = true ∧
    get_block_lock_owner
      (acquire_block_lock r t' document_id block_id u 30).1 t'
      document_id block_id = some u := by
  have hget : redisGetStr r t (lockKeyOf document_id block_id) = some owner := by
    simp [redisGetStr, hheld, hlive]
  have hget' : redisGetStr r t' (lockKeyOf document_id block_id) = none := by
    simp [redisGetStr, hheld, hexp]
  refine ⟨?_, ?_, ?_, ?_, ?_, ?_⟩
  · simp [acquire_block_lock, hget]
  · simp [acquire_block_lock, hget]
  · simp [get_block_lock_owner, hget]
  · simp [release_block_lock, hget, hne.symm]
  · simp [acquire_block_lock, hget']
  · simp only [acquire_block_lock, hget']
    unfold get_block_lock_owner redisGetStr
    simp [redisLive]

/-- Witness for C5 at a concrete lock held by u1 until time 30. -/
theorem C5_witness :
    (acquire_block_lock exampleLockRedis 0 "d1" "b1" "u2" 30).2 = false ∧
    (acquire_block_lock exampleLockRedis 0 "d1" "b1" "u2" 30).1 =
      exampleLockRedis ∧
    get_block_lock_owner exampleLockRedis 0 "d1" "b1" = some "u1" ∧
    release_block_lock exampleLockRedis 0 "d1" "b1" "u2" = exampleLockRedis ∧
    (acquire_block_lock exampleLockRedis 30 "d1" "b1" "u2" 30).2 = true ∧
    get_block_lock_owner
      (acquire_block_lock exampleLockRedis 30 "d1" "b1" "u2" 30).1 30
      "d1" "b1" = some "u2" :=
  C5_lock_lease_exclusion exampleLockRedis 0 30 "d1" "b1" "u1" "u2" "u2"
    (some 30) (by decide) (by decide) (by decide) (by decide)

/-- Claim C6 failing input: u1 joins d1 at t = 0 and refreshes through
update_activity at t = 50 (before the entry TTL lapses, pushing the user
hash expiry to 110), yet the listing at t = 70 is empty, because only
add_user_presence refreshes the membership-set key, whose TTL still ends
at 60. -/
theorem C6_refreshed_entry_vanishes :
    (get_active_users presenceTrace 50 "d1").map ActiveUser.user_id = ["u1"] ∧
    presenceTrace.hashes (presUserKey "d1" "u1") =
      some ({ display_name := "Alice", avatar := "", color := "#ef4444",
              cursor := emptyCursorJson, last_activity := 50 }, some 110) ∧
    get_active_users presenceTrace 70 "d1" = [] := by decide

theorem handleGroupEvent_none_iff (s : Session) (e : GroupEvent) :
    handleGroupEvent s e = none ↔ e.excludeOf = some s.channel_name := by
  cases e <;> simp [handleGroupEvent, GroupEvent.excludeOf]

theorem groupSend_count (group : List Session) (e : GroupEvent) (c : String) :
    ((groupSend group e).filter fun d => d.1 = c).length =
      if e.excludeOf = some c then 0
      else (group.filter fun s => s.channel_name = c).length := by
  induction group with
  | nil => simp [groupSend]
  | cons s gs ih =>
    rw [groupSend] at ih ⊢
    cases hm : handleGroupEvent s e with
    | none =>
      have hex : e.excludeOf = some s.channel_name :=
        (handleGroupEvent_none_iff s e).1 hm
      by_cases hc : s.channel_name = c
      · subst hc
        simp [List.filterMap_cons, hm, ih, hex]
      · have hnc : e.excludeOf ≠ some c := by
          rw [hex]; simpa using hc
        simp [List.filterMap_cons, hm, ih, hc, hnc]
    | some m =>
      have hex : e.excludeOf ≠ some s.channel_name := by
        intro h
        have h2 := (handleGroupEvent_none_iff s e).2 h
        rw [h2] at hm
        exact Option.noConfusion hm
      by_cases hc : s.channel_name = c
      · subst hc
        simp [List.filterMap_cons, hm, ih, hex]
      · simp [List.filterMap_cons, hm, ih, hc]

theorem groupDiscard_count (group : List Session) (ch c : String) :
    ((groupDiscard group ch).filter fun s => s.channel_name = c).length =
      if c = ch then 0
      else (group.filter fun s => s.channel_name = c).length := by
  induction group with
  | nil => simp [groupDiscard]
  | cons s gs ih =>
    rw [groupDiscard] at ih ⊢
    by_cases h1 : s.channel_name = ch <;> by_cases h2 : s.channel_name = c <;>
      by_cases h3 : c = ch <;>
      simp_all [List.filter_cons]

/-- Claim C4 (amended).  Events tagged with exclude_channel (operation,
cursor, awareness, typing) are delivered exactly once to every group
channel other than the originator's and never to the originator.
The block.locked, block.unlocked, user.joined and user.left events
carry no exclude tag and are delivered exactly once to every channel of
the group they are sent to; for block.locked, block.unlocked and
user.joined that group still contains the originator, while the
disconnect flow discards the leaver's channel from the group before
sending user.left, so the leaver receives nothing and every remaining
session receives it exactly once. -/
theorem C4_fanout_delivery_counts (group : List Session) (sender : Session)
    (oid pay cur stt bid : String) (v : Nat) (obid : Option String)
    (c : String) :
    (((groupSend group (sendOperationEvent sender oid pay v)).filter
        fun d => d.1 = c).length =
      if c = sender.channel_name then 0
      else (group.filter fun s => s.channel_name = c).length) ∧
    (((groupSend group (sendCursorEvent sender cur)).filter
        fun d => d.1 = c).length =
      if c = sender.channel_name then 0
      else (group.filter fun s => s.channel_name = c).length) ∧
    (((groupSend group (sendAwarenessEvent sender stt)).filter
        fun d => d.1 = c).length =
      if c = sender.channel_name then 0
      else (group.filter fun s => s.channel_name = c).length) ∧
    (((groupSend group (sendTypingStartEvent sender obid)).filter
        fun d => d.1 = c).length =
      if c = sender.channel_name then 0
      else (group.filter fun s => s.channel_name = c).length) ∧
    (((groupSend group (sendTypingStopEvent sender obid)).filter
        fun d => d.1 = c).length =
      if c = sender.channel_name then 0
      else (group.filter fun s => s.channel_name = c).length) ∧
    (((groupSend group (sendBlockLockedEvent sender bid)).filter
        fun d => d.1 = c).length =
      (group.filter fun s => s.channel_name = c).length) ∧
    (((groupSend group (sendBlockUnlockedEvent sender bid)).filter
        fun d => d.1 = c).length =
      (group.filter fun s => s.channel_name = c).length) ∧
    (((groupSend group (sendUserJoinedEvent sender)).filter
        fun d => d.1 = c).length =
      (group.filter fun s => s.channel_name = c).length) ∧
    (((groupSend group (sendUserLeftEvent sender)).filter
        fun d => d.1 = c).length =
      (group.filter fun s => s.channel_name = c).length) ∧
    (((disconnectFanout group sender).filter fun d => d.1 = c).length =
      if c = sender.channel_name then 0
      else (group.filter fun s => s.channel_name = c).length) := by
  refine ⟨?_, ?_, ?_, ?_, ?_, ?_, ?_, ?_, ?_, ?_⟩ <;>
  · simp only [disconnectFanout, sendOperationEvent, sendCursorEvent,
      sendAwarenessEvent, sendTypingStartEvent, sendTypingStopEvent,
      sendBlockLockedEvent, sendBlockUnlockedEvent, sendUserJoinedEvent,
      sendUserLeftEvent]
    rw [groupSend_count]
    by_cases hc : c = sender.channel_name
    · subst hc
      simp [GroupEvent.excludeOf, groupDiscard_count]
    · simp [GroupEvent.excludeOf, hc, Ne.symm hc, groupDiscard_count]

/-- Claim C4 counterexample: sessA's own block.locked fan-out is
delivered back to sessA's channel chA. -/
theorem C4_counterexample :
    (groupSend [sessA, sessB] (sendBlockLockedEvent sessA "b1")).map
      Prod.fst = ["chA", "chB"] := by decide

theorem receive_duplicate_drop (σ : Type)
    (handlers : String → Option (HandlerFun σ)) (st : GatewayState σ)
    (t : Nat) (mtype : Option String) (mid : String)
    (hdup : is_duplicate st.cache t mid = true) :
    receive σ handlers st t (.msg mtype (some mid)) = (st, []) := by
  unfold receive
  simp [hdup]

/-- Claim C7.  A message whose id is already marked is dropped before
dispatch: same gateway state (idempotency cache and handler state), no
actions (no handler invocation, no reply, no close), for every handler
table. -/
theorem C7_duplicate_silently_dropped (σ : Type)
    (handlers : String → Option (HandlerFun σ)) (st : GatewayState σ)
    (t : Nat) (mtype : Option String) (mid : String)
    (hdup : is_duplicate st.cache t mid = true) :
    receive σ handlers st t (.msg mtype (some mid)) = (st, []) :=
  receive_duplicate_drop σ handlers st t mtype mid hdup

/-- Witness for C7: a marked id m1 is dropped with no actions. -/
theorem C7_witness :
    receive Nat exampleHandlers markedGateway 0
      (.msg (some "operation") (some "m1")) = (markedGateway, []) :=
  C7_duplicate_silently_dropped Nat exampleHandlers markedGateway 0
    (some "operation") "m1" (by decide)

/-- Claim C10.  A fresh id is marked with a five-minute expiry before
the handler runs, whatever the handler then does (including raising);
any retransmission with the same id inside that window is dropped
without reaching a handler. -/
theorem C10_marked_before_handler (σ : Type)
    (handlers : String → Option (HandlerFun σ)) (st : GatewayState σ)
    (t t' : Nat) (mtype mtype2 : Option String) (mid : String)
    (hnew : is_duplicate st.cache t mid = false)
    (httl : t' < t + IDEMPOTENCY_TTL) :
    (receive σ handlers st t (.msg mtype (some mid))).1.cache
        ("idempotency:" ++ mid) = some (t + IDEMPOTENCY_TTL) ∧
    receive σ handlers
        (receive σ handlers st t (.msg mtype (some mid))).1 t'
        (.msg mtype2 (some mid)) =
      ((receive σ handlers st t (.msg mtype (some mid))).1, []) := by
  have hmark :
      (receive σ handlers st t (.msg mtype (some mid))).1.cache =
        mark_processed st.cache t mid := by
    unfold receive
    simp only [hnew]
    cases handlers (optTypeStr mtype) <;> simp
  have hkey : mark_processed st.cache t mid ("idempotency:" ++ mid) =
      some (t + IDEMPOTENCY_TTL) := by
    simp [mark_processed]
  have hdup2 :
      is_duplicate
        (receive σ handlers st t (.msg mtype (some mid))).1.cache t' mid =
        true := by
    rw [hmark]
    simp [is_duplicate, hkey, httl]
  constructor
  · rw [hmark, hkey]
  · exact receive_duplicate_drop σ handlers _ t' mtype2 mid hdup2

/-- Witness for C10: a fresh id is marked even though the operation
handler raises, and the retransmission at t = 299 is dropped. -/
theorem C10_witness :
    (receive Nat exampleHandlers freshGateway 0
        (.msg (some "operation") (some "m1"))).1.cache
        ("idempotency:" ++ "m1") = some (0 + IDEMPOTENCY_TTL) ∧
    receive Nat exampleHandlers
        (receive Nat exampleHandlers freshGateway 0
          (.msg (some "operation") (some "m1"))).1 299
        (.msg (some "operation") (some "m1")) =
      ((receive Nat exampleHandlers freshGateway 0
          (.msg (some "operation") (some "m1"))).1, []) :=
  C10_marked_before_handler Nat exampleHandlers freshGateway 0 299
    (some "operation") (some "operation") "m1" (by decide) (by decide)
